import Mathlib

/-!
Verification development for the tracing core of `src/rpc_span.h`:
the `SnowFlake` identifier generator, the `RPCSpan` record, the
`RPCSpanLogTask` record formatter and the `RPCSpanLoggerDefault`
sampling filter.

Machine integers are modelled as `Nat`, reduced modulo `2 ^ 64`
(`uint64_t`) or `2 ^ 32` (`unsigned int`) exactly where the C code can
overflow.  The wall-clock millisecond value that the C code reads with
`clock_gettime(CLOCK_MONOTONIC)` is passed to each operation as an
explicit `timestamp` argument, so an execution is a sequence of calls
together with the clock values observed by them.
-/

/-- `TOTAL_BITS` constant of `SnowFlake` (`rpc_span.h`). -/
def TOTAL_BITS : ℕ := 64

/-- Wrapping 64-bit subtraction: the semantics of `uint64_t` subtraction in C
for operands already reduced modulo `2 ^ 64`. -/
def wsub64 (a b : ℕ) : ℕ := (a + (2 ^ 64 - b % 2 ^ 64)) % 2 ^ 64

/-- State of one `SnowFlake` instance: the two mutable fields
(`last_timestamp`, `sequence`) and the configuration computed by the
constructor, immutable afterwards. -/
structure SnowFlake where
  last_timestamp : ℕ
  sequence : ℕ
  timestamp_bits : ℕ
  group_bits : ℕ
  machine_bits : ℕ
  sequence_bits : ℕ
  group_id_max : ℕ
  machine_id_max : ℕ
  sequence_max : ℕ
  timestamp_shift : ℕ
  group_shift : ℕ
  machine_shift : ℕ
deriving DecidableEq

/-- The three-argument `SnowFlake` constructor.  All arithmetic is `uint64_t`
arithmetic, hence the reductions modulo `2 ^ 64`; `1 << bits` is well defined
for every configuration used below. -/
def SnowFlake.create (timestamp_bits group_bits machine_bits : ℕ) : SnowFlake :=
  { last_timestamp := 1
    sequence := 0
    timestamp_bits := timestamp_bits
    group_bits := group_bits
    machine_bits := machine_bits
    sequence_bits := wsub64 (wsub64 (wsub64 TOTAL_BITS timestamp_bits) group_bits) machine_bits
    group_id_max := (1 <<< group_bits) % 2 ^ 64
    machine_id_max := (1 <<< machine_bits) % 2 ^ 64
    sequence_max := (1 <<< (wsub64 (wsub64 (wsub64 TOTAL_BITS timestamp_bits) group_bits)
        machine_bits)) % 2 ^ 64
    timestamp_shift := ((wsub64 (wsub64 (wsub64 TOTAL_BITS timestamp_bits) group_bits)
        machine_bits + machine_bits) % 2 ^ 64 + group_bits) % 2 ^ 64
    group_shift := (wsub64 (wsub64 (wsub64 TOTAL_BITS timestamp_bits) group_bits)
        machine_bits + machine_bits) % 2 ^ 64
    machine_shift := wsub64 (wsub64 (wsub64 TOTAL_BITS timestamp_bits) group_bits)
        machine_bits }

/-- The zero-argument `SnowFlake` constructor delegates to the three-argument
one with `TIMESTAMP_BITS = 37`, `GROUP_BITS = 5`, `MACHINE_BITS = 10`. -/
def SnowFlake.createDefault : SnowFlake := SnowFlake.create 37 5 10

/-- The packing expression of `get_uid`:
`(timestamp << timestamp_shift) | (group_id << group_shift) |
(machine_id << machine_shift) | seq_id`, every `uint64_t` operation reduced
modulo `2 ^ 64`. -/
def SnowFlake.pack (sf : SnowFlake) (timestamp group_id machine_id seq_id : ℕ) : ℕ :=
  (timestamp <<< sf.timestamp_shift) % 2 ^ 64
    ||| (group_id <<< sf.group_shift) % 2 ^ 64
    ||| (machine_id <<< sf.machine_shift) % 2 ^ 64
    ||| seq_id % 2 ^ 64

/-- `SnowFlake::get_uid(group_id, machine_id, uid)`, with the observed clock
millisecond passed as `timestamp`.  Returns the produced uid (`none` exactly
when the C function returns `false`) together with the state of the generator
after the call.  Note that the C code pre-increments `sequence` before the
exhaustion check (`if (++this->sequence > this->sequence_max)`), stores the
incremented value `seq1 = (sequence + 1) mod 2 ^ 64`, and on success
post-increments once more through `seq_id = this->sequence++`. -/
def SnowFlake.get_uid (sf : SnowFlake) (group_id machine_id timestamp : ℕ) :
    Option ℕ × SnowFlake :=
  if group_id > sf.machine_id_max ∨ machine_id > sf.machine_id_max then
    (none, sf)
  else if timestamp < sf.last_timestamp then
    (none, sf)
  else if timestamp = sf.last_timestamp then
    if (sf.sequence + 1) % 2 ^ 64 > sf.sequence_max then
      (none, { sf with sequence := (sf.sequence + 1) % 2 ^ 64 })
    else
      (some (SnowFlake.pack sf timestamp group_id machine_id ((sf.sequence + 1) % 2 ^ 64)),
        { sf with
            sequence := ((sf.sequence + 1) % 2 ^ 64 + 1) % 2 ^ 64
            last_timestamp := timestamp })
  else
    (some (SnowFlake.pack sf timestamp group_id machine_id 0),
      { sf with sequence := 1, last_timestamp := timestamp })

/-- Iterated `get_uid` with one fixed group id, machine id and clock value:
`run sf g m t n` is the result of the `n`-th call together with the state
after it (`(none, sf)` when no call has been made yet). -/
def SnowFlake.run (sf : SnowFlake) (group_id machine_id timestamp : ℕ) :
    ℕ → Option ℕ × SnowFlake
  | 0 => (none, sf)
  | n + 1 =>
      SnowFlake.get_uid (SnowFlake.run sf group_id machine_id timestamp n).2
        group_id machine_id timestamp

/-- Decoding the timestamp field of a uid with the shift constants of the
generator that packed it: shift right by `timestamp_shift` and keep
`timestamp_bits` bits. -/
def SnowFlake.unpack_timestamp (sf : SnowFlake) (uid : ℕ) : ℕ :=
  (uid >>> sf.timestamp_shift) % 2 ^ sf.timestamp_bits

/-- Decoding the group field of a uid (shift by `group_shift`, keep
`group_bits` bits). -/
def SnowFlake.unpack_group (sf : SnowFlake) (uid : ℕ) : ℕ :=
  (uid >>> sf.group_shift) % 2 ^ sf.group_bits

/-- Decoding the machine field of a uid (shift by `machine_shift`, keep
`machine_bits` bits). -/
def SnowFlake.unpack_machine (sf : SnowFlake) (uid : ℕ) : ℕ :=
  (uid >>> sf.machine_shift) % 2 ^ sf.machine_bits

/-- Decoding the sequence field of a uid (low `sequence_bits` bits). -/
def SnowFlake.unpack_sequence (sf : SnowFlake) (uid : ℕ) : ℕ :=
  uid % 2 ^ sf.sequence_bits

/-- Modelled from the spec: the unset sentinel `UINT64_UNSET` for `uint64_t`
fields, defined outside this header; an explicit reserved value distinct from
any valid domain value (`(uint64_t)-1`). -/
def UINT64_UNSET : ℕ := 2 ^ 64 - 1

/-- Modelled from the spec: the unset sentinel `UINT_UNSET` for `unsigned int`
(`uint32_t`) fields, defined outside this header (`(unsigned int)-1`). -/
def UINT_UNSET : ℕ := 2 ^ 32 - 1

/-- Modelled from the spec: the unset sentinel `INT_UNSET` for `int` fields,
defined outside this header (`-1`). -/
def INT_UNSET : Int := -1

/-- The `RPCSpan` record: descriptive fields of one traced unit of work. -/
structure RPCSpan where
  trace_id : ℕ
  span_id : ℕ
  parent_span_id : ℕ
  service_name : String
  method_name : String
  data_type : Int
  compress_type : Int
  start_time : ℕ
  end_time : ℕ
  cost : ℕ
  remote_ip : String
  status : Int
  error : Int
deriving DecidableEq

/-- The `RPCSpan` default constructor.  Its initializer list sets every field
except `status` and `error`, which are left uninitialized in the C++ code;
the indeterminate contents they receive are modelled by the two explicit
arguments. -/
def RPCSpan.mkDefault (status error : Int) : RPCSpan :=
  { trace_id := UINT64_UNSET
    span_id := UINT_UNSET
    parent_span_id := UINT_UNSET
    service_name := ""
    method_name := ""
    data_type := INT_UNSET
    compress_type := INT_UNSET
    start_time := UINT64_UNSET
    end_time := UINT64_UNSET
    cost := UINT64_UNSET
    remote_ip := ""
    status := status
    error := error }

/-- The log line emitted by `RPCSpanLogTask::dispatch` for its span: the
`sprintf` chain into `str` followed by `fprintf(stderr, "[SPAN_LOG] %s\n", str)`.
Exactly one such line is produced per dispatched task. -/
def RPCSpanLogTask.dispatch_record (span : RPCSpan) : String :=
  "[SPAN_LOG] "
    ++ ("trace_id:" ++ toString span.trace_id
      ++ " span_id:" ++ toString span.span_id
      ++ " service:" ++ span.service_name
      ++ " method:" ++ span.method_name
      ++ " start:" ++ toString span.start_time
      ++ (if span.parent_span_id ≠ UINT_UNSET then
            " parent_span_id:" ++ toString span.parent_span_id else "")
      ++ (if span.end_time ≠ UINT64_UNSET then
            " end_time:" ++ toString span.end_time else "")
      ++ (if span.cost ≠ UINT64_UNSET then
            " cost:" ++ toString span.cost ++ " remote_ip:" ++ span.remote_ip else ""))
    ++ "\n"

/-- Space-separated joining of `key:value` tokens, as the spec describes the
emitted record format. -/
def joinTokens : List String → String
  | [] => ""
  | [tok] => tok
  | tok :: toks => tok ++ " " ++ joinTokens toks

/-- State of one `RPCSpanLoggerDefault` instance: the per-millisecond limit,
the tracked millisecond and the running count (an `unsigned int`). -/
structure RPCSpanLoggerDefault where
  span_limit : ℕ
  span_timestamp : ℕ
  span_count : ℕ
deriving DecidableEq

/-- `RPCSpanLoggerDefault::filter(span)`, with the observed clock millisecond
passed as `timestamp`.  Returns the accept/reject decision together with the
state of the sampler after the call; `span_count++` is an `unsigned int`
increment, hence the reduction modulo `2 ^ 32`. -/
def RPCSpanLoggerDefault.filter (lg : RPCSpanLoggerDefault) (span : RPCSpan)
    (timestamp : ℕ) : Bool × RPCSpanLoggerDefault :=
  if (timestamp = lg.span_timestamp ∧ lg.span_count < lg.span_limit)
      ∨ span.trace_id ≠ UINT64_UNSET then
    (true, { lg with span_count := (lg.span_count + 1) % 2 ^ 32 })
  else if timestamp > lg.span_timestamp then
    (true, { lg with span_count := 0, span_timestamp := timestamp })
  else
    (false, lg)

/-- The `RPCSpanLoggerDefault` constructor (which sets `span_timestamp = 0`
and `span_count = 0`) followed by `set_span_limit(limit)`. -/
def RPCSpanLoggerDefault.init (limit : ℕ) : RPCSpanLoggerDefault :=
  { span_limit := limit, span_timestamp := 0, span_count := 0 }

/-- Submitting a list of spans to `filter` in order, all observing the same
clock millisecond: the list of decisions and the final sampler state. -/
def RPCSpanLoggerDefault.runFilter (lg : RPCSpanLoggerDefault) (timestamp : ℕ) :
    List RPCSpan → List Bool × RPCSpanLoggerDefault
  | [] => ([], lg)
  | span :: rest =>
      let r := RPCSpanLoggerDefault.filter lg span timestamp
      let rr := RPCSpanLoggerDefault.runFilter r.2 timestamp rest
      (r.1 :: rr.1, rr.2)

example : SnowFlake.create 37 5 10 =
    ⟨1, 0, 37, 5, 10, 12, 32, 1024, 4096, 27, 22, 12⟩ := by decide

example : (SnowFlake.get_uid (SnowFlake.create 37 5 10) 3 4 5).1 =
    some (5 * 2 ^ 27 + 3 * 2 ^ 22 + 4 * 2 ^ 12) := by decide

example : SnowFlake.create 45 5 10 =
    ⟨1, 0, 45, 5, 10, 4, 32, 1024, 16, 19, 14, 4⟩ := by decide

/-- C6: a span whose trace id is not the unset sentinel is always accepted by
`filter`, whatever the tracked millisecond, the running count and the limit. -/
theorem filter_forced_accept (lg : RPCSpanLoggerDefault) (span : RPCSpan)
    (timestamp : ℕ) (h : span.trace_id ≠ UINT64_UNSET) :
    (RPCSpanLoggerDefault.filter lg span timestamp).1 = true := by
  rw [RPCSpanLoggerDefault.filter, if_pos (Or.inr h)]

theorem filter_forced_accept_witness :
    (RPCSpanLoggerDefault.filter ⟨1, 3, 7⟩
      { RPCSpan.mkDefault 0 0 with trace_id := 9 } 99).1 = true :=
  filter_forced_accept ⟨1, 3, 7⟩ { RPCSpan.mkDefault 0 0 with trace_id := 9 } 99
    (by decide)

/-- C10: when `filter` accepts a span because its trace id is set, it performs
the `unsigned int` increment of `span_count` (modulo `2 ^ 32`) and leaves
`span_timestamp` unchanged, even when the current millisecond differs from the
tracked one or the count has already reached the limit. -/
theorem filter_forced_counts (lg : RPCSpanLoggerDefault) (span : RPCSpan)
    (timestamp : ℕ) (h : span.trace_id ≠ UINT64_UNSET) :
    RPCSpanLoggerDefault.filter lg span timestamp =
      (true, { lg with span_count := (lg.span_count + 1) % 2 ^ 32 }) := by
  rw [RPCSpanLoggerDefault.filter, if_pos (Or.inr h)]

theorem filter_forced_counts_witness :
    RPCSpanLoggerDefault.filter ⟨2, 3, 7⟩
        { RPCSpan.mkDefault 0 0 with trace_id := 9 } 99 =
      (true, ⟨2, 3, (7 + 1) % 2 ^ 32⟩) :=
  filter_forced_counts ⟨2, 3, 7⟩ { RPCSpan.mkDefault 0 0 with trace_id := 9 } 99
    (by decide)

/-- C3, counterexample to the claim as stated: on a millisecond rollover
(unset trace id, current millisecond strictly newer than the tracked one) the
span is accepted — `filter` returns `true` — not rejected. -/
theorem filter_rollover_not_rejected :
    (RPCSpan.mkDefault 0 0).trace_id = UINT64_UNSET ∧
    (RPCSpanLoggerDefault.init 1).span_timestamp < 5 ∧
    (RPCSpanLoggerDefault.filter (RPCSpanLoggerDefault.init 1)
      (RPCSpan.mkDefault 0 0) 5).1 = true := by
  decide

/-- C3, amended: on a millisecond rollover `filter` resets `span_count` to
zero, adopts the new millisecond as `span_timestamp`, and accepts the
triggering span without counting it. -/
theorem filter_rollover_accepts (lg : RPCSpanLoggerDefault) (span : RPCSpan)
    (timestamp : ℕ) (hspan : span.trace_id = UINT64_UNSET)
    (ht : timestamp > lg.span_timestamp) :
    RPCSpanLoggerDefault.filter lg span timestamp =
      (true, { lg with span_count := 0, span_timestamp := timestamp }) := by
  rw [RPCSpanLoggerDefault.filter, if_neg, if_pos ht]
  rintro (⟨he, _⟩ | hne)
  · omega
  · exact hne hspan

theorem filter_rollover_accepts_witness :
    RPCSpanLoggerDefault.filter ⟨3, 2, 9⟩ (RPCSpan.mkDefault 0 0) 5 =
      (true, ⟨3, 5, 0⟩) :=
  filter_rollover_accepts ⟨3, 2, 9⟩ (RPCSpan.mkDefault 0 0) 5 (by decide) (by decide)

/-- Budget behaviour of `filter` within one tracked millisecond: starting from
running count `c ≤ N` with limit `N`, a batch of `k` unset-trace spans is
accepted exactly until the count reaches `N` and rejected afterwards. -/
theorem runFilter_budget (sp : RPCSpan) (hsp : sp.trace_id = UINT64_UNSET)
    (N T : ℕ) (hN : N < 2 ^ 32) :
    ∀ (k c : ℕ), c ≤ N →
      (RPCSpanLoggerDefault.runFilter ⟨N, T, c⟩ T (List.replicate k sp)).1 =
        List.replicate (min k (N - c)) true ++ List.replicate (k - (N - c)) false := by
  intro k
  induction k with
  | zero => intro c hc; simp [RPCSpanLoggerDefault.runFilter]
  | succ k ih =>
    intro c hc
    by_cases hcN : c < N
    · have hstep : RPCSpanLoggerDefault.filter ⟨N, T, c⟩ sp T =
          (true, ⟨N, T, (c + 1) % 2 ^ 32⟩) := by
        rw [RPCSpanLoggerDefault.filter, if_pos (Or.inl ⟨rfl, hcN⟩)]
      have hmod : (c + 1) % 2 ^ 32 = c + 1 := Nat.mod_eq_of_lt (by omega)
      simp only [List.replicate_succ, RPCSpanLoggerDefault.runFilter, hstep, hmod]
      rw [ih (c + 1) (by omega)]
      rw [show min (k + 1) (N - c) = min k (N - (c + 1)) + 1 by omega,
        show k + 1 - (N - c) = k - (N - (c + 1)) by omega,
        List.replicate_succ, List.cons_append]
    · have hceq : c = N := by omega
      subst hceq
      have hstep : RPCSpanLoggerDefault.filter ⟨c, T, c⟩ sp T = (false, ⟨c, T, c⟩) := by
        simp [RPCSpanLoggerDefault.filter, hsp]
      simp only [List.replicate_succ, RPCSpanLoggerDefault.runFilter, hstep]
      rw [ih c le_rfl]
      simp [Nat.sub_self, List.replicate_succ]

/-- C5, counterexample to the claim as stated: with limit `N = 2`, a fresh
sampler (tracked millisecond `0`, count `0`) given `N + 5 = 7` unset-trace
spans at millisecond `5` accepts the first three of them — the rollover span
is accepted without being counted — not the first two. -/
theorem runFilter_fresh_overcounts :
    (RPCSpanLoggerDefault.runFilter (RPCSpanLoggerDefault.init 2) 5
        (List.replicate 7 (RPCSpan.mkDefault 0 0))).1 =
      [true, true, true, false, false, false, false] ∧
    (RPCSpanLoggerDefault.runFilter (RPCSpanLoggerDefault.init 2) 5
        (List.replicate 7 (RPCSpan.mkDefault 0 0))).1 ≠
      List.replicate 2 true ++ List.replicate 5 false := by
  decide

/-- C5, amended: when the tracked millisecond already equals the current one
and the running count starts at zero, submitting `N + 5` unset-trace spans
within that millisecond accepts exactly the first `N` and rejects the
remaining `5`. -/
theorem filter_span_limit_exact (sp : RPCSpan) (hsp : sp.trace_id = UINT64_UNSET)
    (N T : ℕ) (hN : N < 2 ^ 32) :
    (RPCSpanLoggerDefault.runFilter ⟨N, T, 0⟩ T (List.replicate (N + 5) sp)).1 =
      List.replicate N true ++ List.replicate 5 false := by
  have h := runFilter_budget sp hsp N T hN (N + 5) 0 (Nat.zero_le _)
  rw [h, Nat.sub_zero, show min (N + 5) N = N by omega, show N + 5 - N = 5 by omega]

theorem filter_span_limit_exact_witness :
    (RPCSpanLoggerDefault.runFilter ⟨2, 7, 0⟩ 7
        (List.replicate (2 + 5) (RPCSpan.mkDefault 0 0))).1 =
      List.replicate 2 true ++ List.replicate 5 false :=
  filter_span_limit_exact (RPCSpan.mkDefault 0 0) (by decide) 2 7 (by decide)

/-- Monotonicity of the packing expression for the default configuration
(shifts 27/22/12): with the group and machine ids within their bit widths, a
sequence id of at most `4096` (the largest value `get_uid` can pack) and both
timestamps below `2 ^ 37`, a strictly larger timestamp yields a strictly
larger packed word. -/
theorem pack_mono (t1 t2 g m s : ℕ) (hg : g < 32) (hm : m < 1024) (hs : s ≤ 4096)
    (ht : t1 < t2) (ht2 : t2 < 2 ^ 37) :
    (t1 <<< 27) % 2 ^ 64 ||| (g <<< 22) % 2 ^ 64 ||| (m <<< 12) % 2 ^ 64 ||| s % 2 ^ 64
      < (t2 <<< 27) % 2 ^ 64 ||| (g <<< 22) % 2 ^ 64 ||| (m <<< 12) % 2 ^ 64
          ||| 0 % 2 ^ 64 := by
  have e1 : (t1 <<< 27) % 2 ^ 64 = 2 ^ 27 * t1 := by
    rw [Nat.shiftLeft_eq, Nat.mul_comm, Nat.mod_eq_of_lt (by omega)]
  have e2 : (t2 <<< 27) % 2 ^ 64 = 2 ^ 27 * t2 := by
    rw [Nat.shiftLeft_eq, Nat.mul_comm, Nat.mod_eq_of_lt (by omega)]
  have eg : (g <<< 22) % 2 ^ 64 = g * 2 ^ 22 := by
    rw [Nat.shiftLeft_eq, Nat.mod_eq_of_lt (by omega)]
  have em : (m <<< 12) % 2 ^ 64 = m * 2 ^ 12 := by
    rw [Nat.shiftLeft_eq, Nat.mod_eq_of_lt (by omega)]
  have es : s % 2 ^ 64 = s := Nat.mod_eq_of_lt (by omega)
  rw [e1, e2, eg, em, es]
  simp only [Nat.or_assoc]
  have hcd : m * 2 ^ 12 ||| s < 2 ^ 22 :=
    Nat.or_lt_two_pow (by omega) (by omega)
  have hcd0 : m * 2 ^ 12 ||| 0 % 2 ^ 64 < 2 ^ 22 :=
    Nat.or_lt_two_pow (by omega) (by omega)
  have hR1 : g * 2 ^ 22 ||| (m * 2 ^ 12 ||| s) < 2 ^ 27 :=
    Nat.or_lt_two_pow (by omega) (by omega)
  have hR2 : g * 2 ^ 22 ||| (m * 2 ^ 12 ||| 0 % 2 ^ 64) < 2 ^ 27 :=
    Nat.or_lt_two_pow (by omega) (by omega)
  rw [← Nat.mul_add_lt_is_or hR1 t1, ← Nat.mul_add_lt_is_or hR2 t2]
  omega

/-- A `get_uid` call that passes the id check and observes a clock value
strictly greater than `last_timestamp` succeeds, packs sequence id `0`, and
records the new timestamp with `sequence = 1`. -/
theorem get_uid_new_ms (sf : SnowFlake) (g m t : ℕ)
    (hgle : g ≤ sf.machine_id_max) (hmle : m ≤ sf.machine_id_max)
    (ht : sf.last_timestamp < t) :
    SnowFlake.get_uid sf g m t =
      (some (SnowFlake.pack sf t g m 0),
        { sf with sequence := 1, last_timestamp := t }) := by
  rw [SnowFlake.get_uid, if_neg (by omega), if_neg (by omega), if_neg (by omega)]

/-- C1, counterexample to the claim as stated: on the default configuration,
with valid ids `group_id = machine_id = 0` and strictly increasing clock values
`2 ^ 37 - 1 < 2 ^ 37`, two successive successful `get_uid` calls return
`A = 2 ^ 64 - 2 ^ 27` and then `B = 0`: the shifted timestamp wraps around
64 bits, so `A < B` fails. -/
theorem get_uid_wraparound :
    (SnowFlake.get_uid (SnowFlake.create 37 5 10) 0 0 (2 ^ 37 - 1)).1
      = some (2 ^ 64 - 2 ^ 27) ∧
    (SnowFlake.get_uid
        (SnowFlake.get_uid (SnowFlake.create 37 5 10) 0 0 (2 ^ 37 - 1)).2
        0 0 (2 ^ 37)).1 = some 0 ∧
    ¬(2 ^ 64 - 2 ^ 27 < (0 : ℕ)) := by decide

/-- C1, amended: on the default configuration, for ids within their bit widths
and strictly increasing clock values that stay below `2 ^ timestamp_bits`
(so that the shifted timestamp fits in 64 bits), two successive successful
`get_uid` calls from any generator state return strictly increasing uids. -/
theorem get_uid_monotonic (l q g m t1 t2 u1 u2 : ℕ) (s1 s2 : SnowFlake)
    (hg : g < 32) (hm : m < 1024) (ht : t1 < t2) (ht2 : t2 < 2 ^ 37)
    (h1 : SnowFlake.get_uid
        { SnowFlake.create 37 5 10 with last_timestamp := l, sequence := q } g m t1
      = (some u1, s1))
    (h2 : SnowFlake.get_uid s1 g m t2 = (some u2, s2)) :
    u1 < u2 := by
  have hsf0 : ({ SnowFlake.create 37 5 10 with
      last_timestamp := l, sequence := q } : SnowFlake)
      = ⟨l, q, 37, 5, 10, 12, 32, 1024, 4096, 27, 22, 12⟩ := rfl
  rw [hsf0] at h1
  unfold SnowFlake.get_uid at h1
  split_ifs at h1 with ha hb hc hd
  · simp at h1
  · simp at h1
  · simp at h1
  · -- same-millisecond success of the first call: seq_id = (q + 1) % 2 ^ 64
    rw [Prod.mk.injEq] at h1
    obtain ⟨hu1, hs1⟩ := h1
    injection hu1 with hu1
    subst hs1
    rw [get_uid_new_ms _ _ _ _ (by show g ≤ 1024; omega) (by show m ≤ 1024; omega)
      (by show t1 < t2; omega)] at h2
    rw [Prod.mk.injEq] at h2
    obtain ⟨hu2, -⟩ := h2
    injection hu2 with hu2
    subst hu1
    subst hu2
    have hs : (q + 1) % 2 ^ 64 ≤ 4096 := by
      have hd' : ¬((q + 1) % 2 ^ 64 > 4096) := hd
      omega
    exact pack_mono t1 t2 g m _ hg hm hs ht ht2
  · -- new-millisecond success of the first call: seq_id = 0
    rw [Prod.mk.injEq] at h1
    obtain ⟨hu1, hs1⟩ := h1
    injection hu1 with hu1
    subst hs1
    rw [get_uid_new_ms _ _ _ _ (by show g ≤ 1024; omega) (by show m ≤ 1024; omega)
      (by show t1 < t2; omega)] at h2
    rw [Prod.mk.injEq] at h2
    obtain ⟨hu2, -⟩ := h2
    injection hu2 with hu2
    subst hu1
    subst hu2
    exact pack_mono t1 t2 g m 0 hg hm (by omega) ht ht2

theorem get_uid_monotonic_witness : (683687936 : ℕ) < 817905664 :=
  get_uid_monotonic 1 0 3 4 5 6 683687936 817905664
    ⟨5, 1, 37, 5, 10, 12, 32, 1024, 4096, 27, 22, 12⟩
    ⟨6, 1, 37, 5, 10, 12, 32, 1024, 4096, 27, 22, 12⟩
    (by decide) (by decide) (by decide) (by decide) (by decide) (by decide)

/-- C4, counterexample to the claim as stated: on the configuration
`SnowFlake(45, 5, 10)` (`sequence_bits = 4`, `sequence_max = 16`), after nine
successful calls in one millisecond the generator holds `sequence = 17`; the
tenth call in the same millisecond fails, yet the pre-increment
`++this->sequence` has stored `sequence = 18`: a failing call mutated
`sequence`. -/
theorem get_uid_exhaustion_mutates :
    (SnowFlake.run (SnowFlake.create 45 5 10) 0 0 2 9).2.sequence = 17 ∧
    (SnowFlake.run (SnowFlake.create 45 5 10) 0 0 2 10).1 = none ∧
    (SnowFlake.run (SnowFlake.create 45 5 10) 0 0 2 10).2.sequence = 18 := by
  decide

/-- C4, amended: every failing `get_uid` call leaves `last_timestamp`
unchanged; the id-check and clock-regression failures also leave `sequence`
unchanged, while a sequence-exhaustion failure stores the pre-incremented
value `(sequence + 1) mod 2 ^ 64`. -/
theorem get_uid_failure_state (sf s' : SnowFlake) (g m t : ℕ)
    (h : SnowFlake.get_uid sf g m t = (none, s')) :
    s'.last_timestamp = sf.last_timestamp ∧
      (s'.sequence = sf.sequence ∨
        (t = sf.last_timestamp ∧ (sf.sequence + 1) % 2 ^ 64 > sf.sequence_max ∧
          s'.sequence = (sf.sequence + 1) % 2 ^ 64)) := by
  unfold SnowFlake.get_uid at h
  split_ifs at h with ha hb hc hd
  · obtain rfl : sf = s' := congrArg Prod.snd h
    exact ⟨rfl, Or.inl rfl⟩
  · obtain rfl : sf = s' := congrArg Prod.snd h
    exact ⟨rfl, Or.inl rfl⟩
  · obtain rfl : ({ sf with sequence := (sf.sequence + 1) % 2 ^ 64 } : SnowFlake) = s' :=
      congrArg Prod.snd h
    exact ⟨rfl, Or.inr ⟨hc, hd, rfl⟩⟩
  · simp at h
  · simp at h

theorem get_uid_failure_state_witness :
    (⟨2, 18, 45, 5, 10, 4, 32, 1024, 16, 19, 14, 4⟩ : SnowFlake).last_timestamp =
        (⟨2, 17, 45, 5, 10, 4, 32, 1024, 16, 19, 14, 4⟩ : SnowFlake).last_timestamp ∧
      ((⟨2, 18, 45, 5, 10, 4, 32, 1024, 16, 19, 14, 4⟩ : SnowFlake).sequence =
          (⟨2, 17, 45, 5, 10, 4, 32, 1024, 16, 19, 14, 4⟩ : SnowFlake).sequence ∨
        (2 = (⟨2, 17, 45, 5, 10, 4, 32, 1024, 16, 19, 14, 4⟩ : SnowFlake).last_timestamp ∧
          ((⟨2, 17, 45, 5, 10, 4, 32, 1024, 16, 19, 14, 4⟩ : SnowFlake).sequence + 1) % 2 ^ 64 >
            (⟨2, 17, 45, 5, 10, 4, 32, 1024, 16, 19, 14, 4⟩ : SnowFlake).sequence_max ∧
          (⟨2, 18, 45, 5, 10, 4, 32, 1024, 16, 19, 14, 4⟩ : SnowFlake).sequence =
            ((⟨2, 17, 45, 5, 10, 4, 32, 1024, 16, 19, 14, 4⟩ : SnowFlake).sequence + 1) %
              2 ^ 64)) :=
  get_uid_failure_state ⟨2, 17, 45, 5, 10, 4, 32, 1024, 16, 19, 14, 4⟩
    ⟨2, 18, 45, 5, 10, 4, 32, 1024, 16, 19, 14, 4⟩ 0 0 2 (by decide)

/-- C7: the id check of `get_uid` compares both ids against `machine_id_max`
and uses `>` rather than `>=`.  On the default configuration
(`group_id_max = 32`, `machine_id_max = 1024`), a call with `group_id = 32`
(not strictly below the group-id maximum of its own field) succeeds, as does
one with `machine_id = 1024` (not strictly below the machine-id maximum). -/
theorem get_uid_id_check_lax :
    (SnowFlake.create 37 5 10).group_id_max = 32 ∧
    (SnowFlake.create 37 5 10).machine_id_max = 1024 ∧
    (SnowFlake.get_uid (SnowFlake.create 37 5 10) 32 0 2).1 = some 402653184 ∧
    (SnowFlake.get_uid (SnowFlake.create 37 5 10) 0 1024 2).1 = some 272629760 := by
  decide

/-- C2: on the configuration `SnowFlake(45, 5, 10)` (`sequence_bits = 4`,
`sequence_max = 16`, shifts 19/14/4), the ninth call of one millisecond with
in-range ids `group_id = machine_id = 0` succeeds and packs
`seq_id = 16 = sequence_max`, which overflows the 4-bit sequence field:
decoding the resulting uid `1048592 = 2 * 2 ^ 19 + 16` with the generator's
own shift constants yields machine id `1` instead of the original `0`, and a
sequence field of `0` while the packed sequence value `16` lies outside
`[0, sequence_max)`. -/
theorem get_uid_decode_corrupted :
    (SnowFlake.run (SnowFlake.create 45 5 10) 0 0 2 9).1 = some 1048592 ∧
    (SnowFlake.create 45 5 10).sequence_max = 16 ∧
    SnowFlake.unpack_machine (SnowFlake.create 45 5 10) 1048592 = 1 ∧
    SnowFlake.unpack_sequence (SnowFlake.create 45 5 10) 1048592 = 0 ∧
    SnowFlake.unpack_timestamp (SnowFlake.create 45 5 10) 1048592 = 2 ∧
    SnowFlake.unpack_group (SnowFlake.create 45 5 10) 1048592 = 0 := by
  decide

/-- Merging two adjacent literal tokens of an append chain. -/
theorem append_merge (a b c : String) (h : a ++ b = c) (x : String) :
    a ++ (b ++ x) = c ++ x := by
  rw [← String.append_assoc, h]

/-- C8: the single-line record emitted by `dispatch` is exactly the
space-separated token list `[SPAN_LOG]`, `trace_id:`, `span_id:`, `service:`,
`method:`, `start:` in this order, then optionally `parent_span_id:`, then
optionally `end_time:`, then optionally the pair `cost:` `remote_ip:`; each
optional part is present if and only if its backing field is not the unset
sentinel. -/
theorem dispatch_record_fields (span : RPCSpan) :
    RPCSpanLogTask.dispatch_record span =
      joinTokens
        (["[SPAN_LOG]",
          "trace_id:" ++ toString span.trace_id,
          "span_id:" ++ toString span.span_id,
          "service:" ++ span.service_name,
          "method:" ++ span.method_name,
          "start:" ++ toString span.start_time]
          ++ (if span.parent_span_id ≠ UINT_UNSET then
                ["parent_span_id:" ++ toString span.parent_span_id] else [])
          ++ (if span.end_time ≠ UINT64_UNSET then
                ["end_time:" ++ toString span.end_time] else [])
          ++ (if span.cost ≠ UINT64_UNSET then
                ["cost:" ++ toString span.cost, "remote_ip:" ++ span.remote_ip] else []))
        ++ "\n" := by
  by_cases hp : span.parent_span_id = UINT_UNSET <;>
    by_cases he : span.end_time = UINT64_UNSET <;>
      by_cases hc : span.cost = UINT64_UNSET <;>
        simp only [RPCSpanLogTask.dispatch_record, joinTokens, hp, he, hc, ne_eq,
          not_true, not_false_iff, if_true, if_false, ite_true, ite_false,
          List.cons_append, List.nil_append, List.append_nil,
          String.append_empty, String.empty_append, String.append_assoc,
          append_merge " " "trace_id:" " trace_id:" rfl,
          append_merge "[SPAN_LOG]" " trace_id:" "[SPAN_LOG] trace_id:" rfl,
          append_merge "[SPAN_LOG] " "trace_id:" "[SPAN_LOG] trace_id:" rfl,
          append_merge " " "span_id:" " span_id:" rfl,
          append_merge " " "service:" " service:" rfl,
          append_merge " " "method:" " method:" rfl,
          append_merge " " "start:" " start:" rfl,
          append_merge " " "parent_span_id:" " parent_span_id:" rfl,
          append_merge " " "end_time:" " end_time:" rfl,
          append_merge " " "cost:" " cost:" rfl,
          append_merge " " "remote_ip:" " remote_ip:" rfl]

/-- C9: the `RPCSpan` default constructor stores the unset sentinel in every
numeric field it initializes, but its initializer list omits `status` and
`error`, which therefore hold indeterminate contents (here `7`) rather than
the sentinel. -/
theorem rpcspan_default_fields :
    (RPCSpan.mkDefault 7 7).trace_id = UINT64_UNSET ∧
    (RPCSpan.mkDefault 7 7).span_id = UINT_UNSET ∧
    (RPCSpan.mkDefault 7 7).parent_span_id = UINT_UNSET ∧
    (RPCSpan.mkDefault 7 7).data_type = INT_UNSET ∧
    (RPCSpan.mkDefault 7 7).compress_type = INT_UNSET ∧
    (RPCSpan.mkDefault 7 7).start_time = UINT64_UNSET ∧
    (RPCSpan.mkDefault 7 7).end_time = UINT64_UNSET ∧
    (RPCSpan.mkDefault 7 7).cost = UINT64_UNSET ∧
    (RPCSpan.mkDefault 7 7).status ≠ INT_UNSET ∧
    (RPCSpan.mkDefault 7 7).error ≠ INT_UNSET := by
  decide
